import Mathlib

set_option linter.unusedVariables false

/-!
Shallow embedding of src/src/action.ts (cloudflare-pages-slack-notification).

The action polls the Cloudflare Pages deployment list, tracks stage changes,
reflects statuses to GitHub deployments, and sends Slack notifications.
Network interactions are modelled as explicit inputs (`PollResult`,
`LogsResponse`) supplied to each loop iteration; the observable side effects
(console-relevant outputs, core.setOutput, core.setFailed, slack.send
attempts, GitHub API calls) are recorded as a trace of `Event`s.
-/

/-- Stage of a deployment: `latest_stage` carries a name and a status. -/
structure Stage where
  name : String
  status : String
deriving DecidableEq, Repr

/-- Trigger metadata attached to a deployment: branch and commit hash. -/
structure TriggerMetadata where
  branch : String
  commit_hash : String
deriving DecidableEq, Repr

/-- Deployment trigger wrapper, mirroring `deployment.deployment_trigger`. -/
structure DeploymentTrigger where
  metadata : TriggerMetadata
deriving DecidableEq, Repr

/-- Deployment record as read from the Cloudflare Pages API. -/
structure Deployment where
  id : String
  project_name : String
  environment : String
  url : String
  aliases : Option (List String)
  is_skipped : Bool
  deployment_trigger : DeploymentTrigger
  latest_stage : Stage
deriving DecidableEq, Repr

/-- Action inputs read by `run` via core.getInput. -/
structure Config where
  accountEmail : String
  apiKey : String
  apiToken : String
  accountId : String
  project : String
  token : String
  commitHash : String
  slackWebHook : String
  commitUrl : String
  actor : String
deriving DecidableEq, Repr

/-- Observable side effects of the action, recorded as a trace. -/
inductive Event where
  | logWaiting
  | logStage (name : String)
  | skipOutput (msg : String)
  | setFailedEvt (msg : String)
  | slackSend (webhook : String) (msg : String)
  | updateCall (state : String)
  | ghCreateDeployment (environment : String) (production : Bool)
  | ghCreateDeploymentStatus (state : String) (environmentUrl : String)
  | output (key : String) (value : String)
deriving DecidableEq, Repr

/-- Outcome of one fetch of the deployment-list endpoint, as seen by
`pollApi`: a thrown network error, a body that fails to parse as JSON, a
parsed body with `success:false` carrying an error list, or a parsed
successful body carrying the (newest-first) deployment list. -/
inductive PollResult where
  | netError (msg : String)
  | parseError (msg : String)
  | apiError (errors : List String)
  | ok (result : List Deployment)
deriving DecidableEq, Repr

/-- Outcome of one fetch of the deployment-history-logs endpoint, as seen by
`getCloudflareLogs`: thrown network error, non-ok HTTP status, body that
fails to parse, or a parsed body whose `result.data` is either not an array
(`none`) or the list of log lines. -/
inductive LogsResponse where
  | netError (msg : String)
  | httpError (status : Nat)
  | parseError
  | body (data : Option (List String))
deriving DecidableEq, Repr

/-- getCloudflareLogs: every failure shape yields the empty string; a parsed
non-empty `result.data` yields the last 20 lines joined and code-fenced. -/
def getCloudflareLogs : LogsResponse → String
  | LogsResponse.netError _ => ""
  | LogsResponse.httpError _ => ""
  | LogsResponse.parseError => ""
  | LogsResponse.body none => ""
  | LogsResponse.body (some lines) =>
    if lines.length > 0 then
      "```" ++ String.intercalate "\n" (lines.drop (lines.length - 20)) ++ "\n```"
    else ""

/-- validateAuthInputs from action.ts: token alone suffices, otherwise both
email and key must be non-empty. -/
def validateAuthInputs (token : String) (email : String) (key : String) : Bool :=
  if token ≠ "" then true
  else if email ≠ "" ∧ key ≠ "" then true
  else false

/-- Deployment selection at the end of pollApi: empty commitHash picks the
head of the list, otherwise the first whose trigger commit hash matches. -/
def selectDeployment (commitHash : String) (result : List Deployment) : Option Deployment :=
  if commitHash = "" then result.head?
  else result.find? (fun d => d.deployment_trigger.metadata.commit_hash == commitHash)

/-- First reported API error, with the placeholder used when the list is empty. -/
def firstError : List String → String
  | [] => "Unknown error!"
  | e :: _ => e

/-- pollApi: returns the selected deployment (if any), the events it emits,
and whether it set the module-level `waiting` flag to false. -/
def pollApi (commitHash : String) (r : PollResult) :
    Option Deployment × List Event × Bool :=
  match r with
  | PollResult.netError msg => (none, [Event.setFailedEvt msg], false)
  | PollResult.parseError msg => (none, [Event.setFailedEvt msg], false)
  | PollResult.apiError errors =>
    (none,
     [Event.setFailedEvt ("Failed to check deployment status! Error: " ++ firstError errors)],
     true)
  | PollResult.ok result => (selectDeployment commitHash result, [], false)

/-- Human label for the environment, as computed inside updateDeployment. -/
def environmentLabel (d : Deployment) : String :=
  if d.environment = "production" then "Production"
  else "Preview (" ++ d.deployment_trigger.metadata.branch ++ ")"

/-- updateDeployment: no-op on an empty token; otherwise lazily creates the
GitHub deployment record once, and pushes a deployment status only when the
latest stage is named deploy with status success or failed. Returns the new
cached `ghDeployment` and the GitHub API calls performed. -/
def updateDeployment (token : String) (ghDeployment : Option Unit)
    (deployment : Deployment) (state : String) : Option Unit × List Event :=
  if token = "" then (ghDeployment, [])
  else
    let environment := environmentLabel deployment
    let created :=
      match ghDeployment with
      | none =>
        (some (),
         [Event.ghCreateDeployment environment (deployment.environment == "production")])
      | some g => (some g, ([] : List Event))
    if deployment.latest_stage.name = "deploy" ∧
        (deployment.latest_stage.status = "success" ∨ deployment.latest_stage.status = "failed") then
      (created.1, created.2 ++ [Event.ghCreateDeploymentStatus state deployment.url])
    else (created.1, created.2)

/-- Slack message sent on the failure path. -/
def failureMessage (cfg : Config) (d : Deployment) (logs : String) : String :=
  "Deployment failed for project *" ++ cfg.project ++ "*\nCommit: " ++ cfg.commitUrl ++
    "\nActor: *" ++ cfg.actor ++ "*\nDeployment ID: *" ++ d.id ++
    "*\nLogs: " ++ logs ++ "\n"

/-- Slack message sent on the deploy-success path. -/
def successMessage (cfg : Config) (d : Deployment) (aliasUrl : String) : String :=
  "Deployment succeeded for project *" ++ cfg.project ++ "*\nCommit: " ++ cfg.commitUrl ++
    "\nActor: *" ++ cfg.actor ++ "*\nDeployment ID: *" ++ d.id ++
    "*\nAlias URL: " ++ aliasUrl ++ "\nDeployment URL: " ++ d.url ++
    "\n<https://dash.cloudflare.com?to=/" ++ cfg.accountId ++ "/pages/view/" ++
    d.project_name ++ "/" ++ d.id ++ "|Logs>"

/-- Alias URL computed on the deploy path: first alias when the list is
non-empty, otherwise the primary deployment URL. -/
def aliasUrlOf (d : Deployment) : String :=
  match d.aliases with
  | some (a :: _) => a
  | _ => d.url

/-- Module-level mutable run state of action.ts. -/
structure RunState where
  waiting : Bool
  lastStage : String
  markedAsInProgress : Bool
  ghDeployment : Option Unit
deriving DecidableEq, Repr

/-- Initial run state: waiting, empty lastStage, guard unset, no GitHub record. -/
def initialState : RunState :=
  { waiting := true, lastStage := "", markedAsInProgress := false, ghDeployment := none }

/-- One iteration of the while-loop body of `run`: consumes the outcome of
this poll (and the logs-endpoint outcome used only on the failure path) and
returns the new state, the emitted events, and whether the body executed a
`return` statement. -/
def step (cfg : Config) (s : RunState) (pr : PollResult) (lr : LogsResponse) :
    RunState × List Event × Bool :=
  let poll := pollApi cfg.commitHash pr
  let s0 : RunState := if poll.2.2 then { s with waiting := false } else s
  match poll.1 with
  | none => (s0, poll.2.1 ++ [Event.logWaiting], false)
  | some d =>
    if d.is_skipped then
      ({ s0 with waiting := false },
       poll.2.1 ++ [Event.skipOutput ("Deployment skipped " ++ d.id ++ "!")], true)
    else
      let latestStage := d.latest_stage
      let tracked :=
        if latestStage.name ≠ s0.lastStage then
          let s1 := { s0 with lastStage := latestStage.name }
          if ¬ s1.markedAsInProgress then
            let upd := updateDeployment cfg.token s1.ghDeployment d "in_progress"
            ({ s1 with markedAsInProgress := true, ghDeployment := upd.1 },
             [Event.logStage latestStage.name, Event.updateCall "in_progress"] ++ upd.2)
          else (s1, [Event.logStage latestStage.name])
        else (s0, ([] : List Event))
      let s2 := tracked.1
      let evs1 := tracked.2
      if latestStage.status = "failed" ∨ latestStage.status = "failure" then
        let s3 := { s2 with waiting := false }
        let notifEvs :=
          if cfg.slackWebHook ≠ "" then
            [Event.slackSend cfg.slackWebHook (failureMessage cfg d (getCloudflareLogs lr))]
          else ([] : List Event)
        let upd := updateDeployment cfg.token s3.ghDeployment d "failure"
        ({ s3 with ghDeployment := upd.1 },
         poll.2.1 ++ evs1 ++ notifEvs ++
           [Event.setFailedEvt ("Deployment failed on step: " ++ latestStage.name ++ "!"),
            Event.updateCall "failure"] ++ upd.2,
         true)
      else if latestStage.name = "deploy" ∧
          (latestStage.status = "success" ∨ latestStage.status = "failed") then
        let s3 := { s2 with waiting := false }
        let aliasUrl := aliasUrlOf d
        let outs :=
          [Event.output "id" d.id, Event.output "environment" d.environment,
           Event.output "url" d.url, Event.output "alias" aliasUrl,
           Event.output "success" (if latestStage.status = "success" then "true" else "false")]
        -- source guard reads: latest_stage.status === "success" && true
        -- (the conjunct is the literal true, not the webhook input)
        let notifEvs :=
          if latestStage.status = "success" then
            [Event.slackSend cfg.slackWebHook (successMessage cfg d aliasUrl)]
          else ([] : List Event)
        let ghPart :=
          if cfg.token ≠ "" then
            let st := if latestStage.status = "success" then "success" else "failure"
            let upd := updateDeployment cfg.token s3.ghDeployment d st
            (upd.1, Event.updateCall st :: upd.2)
          else (s3.ghDeployment, ([] : List Event))
        ({ s3 with ghDeployment := ghPart.1 },
         poll.2.1 ++ evs1 ++ outs ++ notifEvs ++ ghPart.2,
         false)
      else
        (s2, poll.2.1 ++ evs1, false)

/-- While-loop of `run`, driven by the finite list of poll outcomes supplied
to this execution: stops when the body returns or `waiting` becomes false. -/
def runLoop (cfg : Config) : RunState → List (PollResult × LogsResponse) → List Event
  | _, [] => []
  | s, p :: rest =>
    if s.waiting then
      let r := step cfg s p.1 p.2
      if r.2.2 then r.2.1 else r.2.1 ++ runLoop cfg r.1 rest
    else []

/-- Error message of validateAuthInputs. -/
def authFailedMessage : String :=
  "Please specify authentication details! Set either `apiToken` or `accountEmail` + `accountKey`!"

/-- Entry point `run`: validates auth inputs, then runs the polling loop
from the initial state. -/
def run (cfg : Config) (polls : List (PollResult × LogsResponse)) : List Event :=
  if validateAuthInputs cfg.apiToken cfg.accountEmail cfg.apiKey then
    runLoop cfg initialState polls
  else [Event.setFailedEvt authFailedMessage]

/-! ## Helper lemmas -/

lemma runLoop_not_waiting (cfg : Config) (s : RunState) (polls : List (PollResult × LogsResponse))
    (h : s.waiting = false) : runLoop cfg s polls = [] := by
  cases polls with
  | nil => rfl
  | cons p rest => simp [runLoop, h]

lemma mem_updateDeployment_events {tok : String} {gh : Option Unit} {d : Deployment}
    {st : String} {e : Event} (he : e ∈ (updateDeployment tok gh d st).2) :
    e = Event.ghCreateDeployment (environmentLabel d) (d.environment == "production") ∨
    e = Event.ghCreateDeploymentStatus st d.url := by
  unfold updateDeployment at he
  split at he
  · simp at he
  · split at he <;> split at he <;> simp_all

lemma updateDeployment_no_output (tok : String) (gh : Option Unit) (d : Deployment)
    (st k v : String) : Event.output k v ∉ (updateDeployment tok gh d st).2 := by
  intro he
  rcases mem_updateDeployment_events he with h | h <;> exact Event.noConfusion h

lemma updateDeployment_no_updateCall (tok : String) (gh : Option Unit) (d : Deployment)
    (st st2 : String) : Event.updateCall st2 ∉ (updateDeployment tok gh d st).2 := by
  intro he
  rcases mem_updateDeployment_events he with h | h <;> exact Event.noConfusion h

lemma updateDeployment_no_slackSend (tok : String) (gh : Option Unit) (d : Deployment)
    (st w m : String) : Event.slackSend w m ∉ (updateDeployment tok gh d st).2 := by
  intro he
  rcases mem_updateDeployment_events he with h | h <;> exact Event.noConfusion h

/-- Detects a reflection of the in_progress status via updateDeployment. -/
def isInProgressCall : Event → Bool
  | Event.updateCall st => st == "in_progress"
  | _ => false

@[simp] lemma isInProgressCall_updateCall (st : String) :
    isInProgressCall (Event.updateCall st) = (st == "in_progress") := rfl

@[simp] lemma isInProgressCall_logWaiting : isInProgressCall Event.logWaiting = false := rfl

@[simp] lemma isInProgressCall_logStage (n : String) :
    isInProgressCall (Event.logStage n) = false := rfl

@[simp] lemma isInProgressCall_skipOutput (m : String) :
    isInProgressCall (Event.skipOutput m) = false := rfl

@[simp] lemma isInProgressCall_setFailedEvt (m : String) :
    isInProgressCall (Event.setFailedEvt m) = false := rfl

@[simp] lemma isInProgressCall_slackSend (w m : String) :
    isInProgressCall (Event.slackSend w m) = false := rfl

@[simp] lemma isInProgressCall_ghCreateDeployment (e : String) (p : Bool) :
    isInProgressCall (Event.ghCreateDeployment e p) = false := rfl

@[simp] lemma isInProgressCall_ghCreateDeploymentStatus (st u : String) :
    isInProgressCall (Event.ghCreateDeploymentStatus st u) = false := rfl

@[simp] lemma isInProgressCall_output (k v : String) :
    isInProgressCall (Event.output k v) = false := rfl

lemma updateDeployment_countP_inProgress (tok : String) (gh : Option Unit) (d : Deployment)
    (st : String) : (updateDeployment tok gh d st).2.countP isInProgressCall = 0 := by
  rw [List.countP_eq_zero]
  intro e he
  rcases mem_updateDeployment_events he with h | h <;> simp [h]

lemma updateDeployment_not_inProgress (tok : String) (gh : Option Unit) (d : Deployment)
    (st : String) : ∀ a ∈ (updateDeployment tok gh d st).2, isInProgressCall a = false := by
  intro a ha
  rcases mem_updateDeployment_events ha with h | h <;> simp [h]

set_option maxHeartbeats 1000000 in
lemma step_inProgress (cfg : Config) (s : RunState) (pr : PollResult) (lr : LogsResponse) :
    (s.markedAsInProgress = true →
      (step cfg s pr lr).1.markedAsInProgress = true ∧
      (step cfg s pr lr).2.1.countP isInProgressCall = 0) ∧
    (s.markedAsInProgress = false →
      ((step cfg s pr lr).1.markedAsInProgress = false ∧
        (step cfg s pr lr).2.1.countP isInProgressCall = 0) ∨
      ((step cfg s pr lr).1.markedAsInProgress = true ∧
        (step cfg s pr lr).2.1.countP isInProgressCall = 1)) := by
  constructor
  · intro hmark
    cases pr with
    | netError m => simp [step, pollApi, hmark]
    | parseError m => simp [step, pollApi, hmark]
    | apiError errors => simp [step, pollApi, hmark]
    | ok result =>
      rcases hsel : selectDeployment cfg.commitHash result with _ | d
      · simp [step, pollApi, hsel, hmark]
      · by_cases hskipd : d.is_skipped = true
        · simp [step, pollApi, hsel, hskipd, hmark]
        · by_cases ht : d.latest_stage.name = s.lastStage <;>
          · constructor <;>
            · simp [step, pollApi, hsel, hskipd, hmark, ht] <;>
                repeat' split
              all_goals try simp [hmark, List.countP_append, List.countP_cons,
                updateDeployment_countP_inProgress]
              all_goals exact updateDeployment_not_inProgress _ _ _ _
  · intro hmark
    cases pr with
    | netError m => left; simp [step, pollApi, hmark]
    | parseError m => left; simp [step, pollApi, hmark]
    | apiError errors => left; simp [step, pollApi, hmark]
    | ok result =>
      rcases hsel : selectDeployment cfg.commitHash result with _ | d
      · left; simp [step, pollApi, hsel, hmark]
      · by_cases hskipd : d.is_skipped = true
        · left; simp [step, pollApi, hsel, hskipd, hmark]
        · by_cases ht : d.latest_stage.name = s.lastStage
          · left
            constructor <;>
            · simp [step, pollApi, hsel, hskipd, hmark, ht] <;>
                repeat' split
              all_goals try simp [hmark, List.countP_append, List.countP_cons,
                updateDeployment_countP_inProgress]
              all_goals exact updateDeployment_not_inProgress _ _ _ _
          · right
            constructor <;>
            · simp [step, pollApi, hsel, hskipd, hmark, ht] <;>
                repeat' split
              all_goals try simp [hmark, List.countP_append, List.countP_cons,
                updateDeployment_countP_inProgress]
              all_goals exact updateDeployment_not_inProgress _ _ _ _

lemma runLoop_inProgress_le (cfg : Config) :
    ∀ (polls : List (PollResult × LogsResponse)) (s : RunState),
      (runLoop cfg s polls).countP isInProgressCall ≤
        (if s.markedAsInProgress = true then 0 else 1) := by
  intro polls
  induction polls with
  | nil => intro s; simp [runLoop]
  | cons p rest ih =>
    intro s
    rw [runLoop]
    by_cases hw : s.waiting = true
    case neg => simp [hw]
    simp only [hw, if_true]
    by_cases hr : (step cfg s p.1 p.2).2.2 = true
    · rw [if_pos hr]
      by_cases hm : s.markedAsInProgress = true
      · have h := (step_inProgress cfg s p.1 p.2).1 hm
        rw [if_pos hm, h.2]
      · have hmf : s.markedAsInProgress = false := by simp_all
        rw [if_neg hm]
        rcases (step_inProgress cfg s p.1 p.2).2 hmf with ⟨h1, h2⟩ | ⟨h1, h2⟩ <;>
          rw [h2] <;> omega
    · rw [if_neg hr, List.countP_append]
      by_cases hm : s.markedAsInProgress = true
      · have h := (step_inProgress cfg s p.1 p.2).1 hm
        have hih := ih (step cfg s p.1 p.2).1
        rw [if_pos h.1] at hih
        rw [if_pos hm]
        omega
      · have hmf : s.markedAsInProgress = false := by simp_all
        rw [if_neg hm]
        rcases (step_inProgress cfg s p.1 p.2).2 hmf with ⟨h1, h2⟩ | ⟨h1, h2⟩
        · have hih := ih (step cfg s p.1 p.2).1
          rw [h1] at hih
          simp only [Bool.false_eq_true, if_false] at hih
          omega
        · have hih := ih (step cfg s p.1 p.2).1
          rw [if_pos h1] at hih
          omega

/-! ## Concrete fixtures -/

/-- Configuration with all optional inputs set. -/
def cfgA : Config :=
  { accountEmail := "", apiKey := "", apiToken := "tok", accountId := "acct",
    project := "proj", token := "ghtok", commitHash := "", slackWebHook := "hook",
    commitUrl := "cu", actor := "alice" }

/-- Configuration with no chat webhook configured. -/
def cfgNoHook : Config :=
  { accountEmail := "", apiKey := "", apiToken := "tok", accountId := "acct",
    project := "proj", token := "ghtok", commitHash := "", slackWebHook := "",
    commitUrl := "cu", actor := "alice" }

/-- Configuration with no auth inputs at all. -/
def cfgNoAuth : Config :=
  { accountEmail := "", apiKey := "", apiToken := "", accountId := "acct",
    project := "proj", token := "", commitHash := "", slackWebHook := "",
    commitUrl := "cu", actor := "alice" }

/-- Configuration filtering on a commit hash no deployment carries. -/
def cfgHash : Config :=
  { accountEmail := "", apiKey := "", apiToken := "tok", accountId := "acct",
    project := "proj", token := "ghtok", commitHash := "zzz", slackWebHook := "hook",
    commitUrl := "cu", actor := "alice" }

/-- Deployment reported as skipped. -/
def depSkipped : Deployment :=
  { id := "d1", project_name := "proj", environment := "production", url := "https://u",
    aliases := none, is_skipped := true,
    deployment_trigger := { metadata := { branch := "main", commit_hash := "abc" } },
    latest_stage := { name := "queued", status := "active" } }

/-- Deployment at the terminal deploy stage with status success. -/
def depDeploySuccess : Deployment :=
  { id := "d2", project_name := "proj", environment := "production", url := "https://u",
    aliases := some ["https://a"], is_skipped := false,
    deployment_trigger := { metadata := { branch := "main", commit_hash := "abc" } },
    latest_stage := { name := "deploy", status := "success" } }

/-- Deployment at the terminal deploy stage with status failed. -/
def depDeployFailed : Deployment :=
  { id := "d3", project_name := "proj", environment := "production", url := "https://u",
    aliases := none, is_skipped := false,
    deployment_trigger := { metadata := { branch := "main", commit_hash := "abc" } },
    latest_stage := { name := "deploy", status := "failed" } }

/-! ## Claims -/

/-- C1 counterexample: a network/transport failure does not abort the run.
After a netError poll the loop keeps polling: the trace of a two-poll run
contains the skip event produced by the second poll, so polling continued
past the network failure. -/
theorem C1_counterexample_network_error_keeps_polling :
    runLoop cfgA initialState
      [(PollResult.netError "boom", LogsResponse.parseError),
       (PollResult.ok [depSkipped], LogsResponse.parseError)] =
      [Event.setFailedEvt "boom", Event.logWaiting,
       Event.skipOutput "Deployment skipped d1!"] ∧
    Event.skipOutput "Deployment skipped d1!" ∈
      runLoop cfgA initialState
        [(PollResult.netError "boom", LogsResponse.parseError),
         (PollResult.ok [depSkipped], LogsResponse.parseError)] := by
  constructor
  · rfl
  · rw [show runLoop cfgA initialState
      [(PollResult.netError "boom", LogsResponse.parseError),
       (PollResult.ok [depSkipped], LogsResponse.parseError)] =
      [Event.setFailedEvt "boom", Event.logWaiting,
       Event.skipOutput "Deployment skipped d1!"] from rfl]
    simp

/-- C1 amended: a network/transport failure or an unparseable response marks
the run failed (setFailed) but does not stop the loop, which continues with
the remaining polls; only an API-level error envelope (success=false) stops
the run with no further polling, surfacing the first reported error, or the
placeholder Unknown error! when the errors list is empty. -/
theorem C1_amended_failure_modes (cfg : Config) (s : RunState) (lr : LogsResponse)
    (m : String) (hw : s.waiting = true) :
    (∀ rest, runLoop cfg s ((PollResult.netError m, lr) :: rest) =
      [Event.setFailedEvt m, Event.logWaiting] ++ runLoop cfg s rest) ∧
    (∀ rest, runLoop cfg s ((PollResult.parseError m, lr) :: rest) =
      [Event.setFailedEvt m, Event.logWaiting] ++ runLoop cfg s rest) ∧
    (∀ errors rest, runLoop cfg s ((PollResult.apiError errors, lr) :: rest) =
      [Event.setFailedEvt ("Failed to check deployment status! Error: " ++ firstError errors),
       Event.logWaiting]) ∧
    (∀ e es, firstError (e :: es) = e) ∧ firstError [] = "Unknown error!" := by
  refine ⟨?_, ?_, ?_, fun e es => rfl, rfl⟩
  · intro rest
    rw [runLoop]
    simp [hw, step, pollApi]
  · intro rest
    rw [runLoop]
    simp [hw, step, pollApi]
  · intro errors rest
    rw [runLoop]
    simp only [hw, if_true]
    have hstep : step cfg s (PollResult.apiError errors) lr =
        ({ s with waiting := false },
         [Event.setFailedEvt ("Failed to check deployment status! Error: " ++ firstError errors),
          Event.logWaiting], false) := by
      simp [step, pollApi]
    rw [hstep]
    simp [runLoop_not_waiting]

/-- C1 witness: the amended behavior at a concrete configuration and state. -/
theorem C1_amended_failure_modes_witness :
    (∀ rest, runLoop cfgA initialState ((PollResult.netError "boom", LogsResponse.parseError) :: rest) =
      [Event.setFailedEvt "boom", Event.logWaiting] ++ runLoop cfgA initialState rest) ∧
    (∀ rest, runLoop cfgA initialState ((PollResult.parseError "boom", LogsResponse.parseError) :: rest) =
      [Event.setFailedEvt "boom", Event.logWaiting] ++ runLoop cfgA initialState rest) ∧
    (∀ errors rest, runLoop cfgA initialState ((PollResult.apiError errors, LogsResponse.parseError) :: rest) =
      [Event.setFailedEvt ("Failed to check deployment status! Error: " ++ firstError errors),
       Event.logWaiting]) ∧
    (∀ e es, firstError (e :: es) = e) ∧ firstError [] = "Unknown error!" :=
  C1_amended_failure_modes cfgA initialState LogsResponse.parseError "boom" rfl

/-- C2 code evaluation at the failing input: with an empty slackWebHook the
deploy-success path still attempts a slack.send (the source guard is
latest_stage.status === success conjoined with the literal true, not with the
webhook input), contradicting the claim that no send is ever attempted when
no webhook endpoint is configured. -/
theorem C2_code_bug_success_notification_sent_without_webhook :
    cfgNoHook.slackWebHook = "" ∧
    Event.slackSend "" (successMessage cfgNoHook depDeploySuccess "https://a") ∈
      run cfgNoHook [(PollResult.ok [depDeploySuccess], LogsResponse.parseError)] := by
  constructor
  · rfl
  · rw [show run cfgNoHook [(PollResult.ok [depDeploySuccess], LogsResponse.parseError)] =
        [Event.logStage "deploy", Event.updateCall "in_progress",
         Event.ghCreateDeployment "Production" true,
         Event.ghCreateDeploymentStatus "in_progress" "https://u",
         Event.output "id" "d2", Event.output "environment" "production",
         Event.output "url" "https://u", Event.output "alias" "https://a",
         Event.output "success" "true",
         Event.slackSend "" (successMessage cfgNoHook depDeploySuccess "https://a"),
         Event.updateCall "success",
         Event.ghCreateDeploymentStatus "success" "https://u"] from rfl]
    simp

/-- C3: a polled deployment whose latest stage is named deploy with a failed
or failure status takes the generic failure path: the body returns (halting
the run), the failure notification and setFailed and the failure reflection
are emitted, and the deploy-success path is never taken (no outputs, no
success reflection, no success notification). -/
theorem C3_failure_path_precedes_deploy_path (cfg : Config) (s : RunState) (d : Deployment)
    (ds : List Deployment) (lr : LogsResponse) (hch : cfg.commitHash = "")
    (hw : s.waiting = true) (hskip : d.is_skipped = false)
    (hname : d.latest_stage.name = "deploy")
    (hstatus : d.latest_stage.status = "failed" ∨ d.latest_stage.status = "failure")
    (hhook : cfg.slackWebHook ≠ "") :
    (step cfg s (PollResult.ok (d :: ds)) lr).2.2 = true ∧
    Event.slackSend cfg.slackWebHook (failureMessage cfg d (getCloudflareLogs lr)) ∈
      (step cfg s (PollResult.ok (d :: ds)) lr).2.1 ∧
    Event.setFailedEvt ("Deployment failed on step: " ++ d.latest_stage.name ++ "!") ∈
      (step cfg s (PollResult.ok (d :: ds)) lr).2.1 ∧
    Event.updateCall "failure" ∈ (step cfg s (PollResult.ok (d :: ds)) lr).2.1 ∧
    (∀ k v, Event.output k v ∉ (step cfg s (PollResult.ok (d :: ds)) lr).2.1) ∧
    Event.updateCall "success" ∉ (step cfg s (PollResult.ok (d :: ds)) lr).2.1 ∧
    (∀ w m, Event.slackSend w m ∈ (step cfg s (PollResult.ok (d :: ds)) lr).2.1 →
      w = cfg.slackWebHook ∧ m = failureMessage cfg d (getCloudflareLogs lr)) ∧
    (∀ rest, runLoop cfg s ((PollResult.ok (d :: ds), lr) :: rest) =
      (step cfg s (PollResult.ok (d :: ds)) lr).2.1) := by
  rcases hstatus with h | h <;>
  · by_cases ht : d.latest_stage.name = s.lastStage <;> by_cases hm : s.markedAsInProgress <;>
    · have hret : (step cfg s (PollResult.ok (d :: ds)) lr).2.2 = true := by
        simp [step, pollApi, selectDeployment, hch, hskip, h, ht, hm]
      refine ⟨hret, ?_, ?_, ?_, ?_, ?_, ?_, ?_⟩ <;>
        simp [step, pollApi, selectDeployment, hch, hskip, h, ht, hm, hhook,
          updateDeployment_no_output, updateDeployment_no_updateCall,
          updateDeployment_no_slackSend, runLoop, hw, hret]

/-- C3 witness: the failure path at a concrete deploy-stage failed deployment. -/
theorem C3_failure_path_precedes_deploy_path_witness :
    (step cfgA initialState (PollResult.ok [depDeployFailed]) LogsResponse.parseError).2.2 = true ∧
    Event.slackSend cfgA.slackWebHook
        (failureMessage cfgA depDeployFailed (getCloudflareLogs LogsResponse.parseError)) ∈
      (step cfgA initialState (PollResult.ok [depDeployFailed]) LogsResponse.parseError).2.1 ∧
    Event.setFailedEvt ("Deployment failed on step: " ++ depDeployFailed.latest_stage.name ++ "!") ∈
      (step cfgA initialState (PollResult.ok [depDeployFailed]) LogsResponse.parseError).2.1 ∧
    Event.updateCall "failure" ∈
      (step cfgA initialState (PollResult.ok [depDeployFailed]) LogsResponse.parseError).2.1 ∧
    (∀ k v, Event.output k v ∉
      (step cfgA initialState (PollResult.ok [depDeployFailed]) LogsResponse.parseError).2.1) ∧
    Event.updateCall "success" ∉
      (step cfgA initialState (PollResult.ok [depDeployFailed]) LogsResponse.parseError).2.1 ∧
    (∀ w m, Event.slackSend w m ∈
        (step cfgA initialState (PollResult.ok [depDeployFailed]) LogsResponse.parseError).2.1 →
      w = cfgA.slackWebHook ∧
      m = failureMessage cfgA depDeployFailed (getCloudflareLogs LogsResponse.parseError)) ∧
    (∀ rest, runLoop cfgA initialState ((PollResult.ok [depDeployFailed], LogsResponse.parseError) :: rest) =
      (step cfgA initialState (PollResult.ok [depDeployFailed]) LogsResponse.parseError).2.1) :=
  C3_failure_path_precedes_deploy_path cfgA initialState depDeployFailed []
    LogsResponse.parseError rfl rfl rfl rfl (Or.inl rfl) (by decide)

/-- C4: over any whole run the in_progress reflection happens at most once;
at step level it fires exactly when the observed stage name differs from the
recorded lastStage while the one-shot guard is unset, setting the guard; it
never fires when the name is unchanged, and never fires once the guard is
set, which also never resets. -/
theorem C4_in_progress_reflected_at_most_once :
    (∀ cfg polls, (runLoop cfg initialState polls).countP isInProgressCall ≤ 1) ∧
    (∀ cfg s d ds lr, cfg.commitHash = "" → d.is_skipped = false →
      s.markedAsInProgress = false → d.latest_stage.name ≠ s.lastStage →
      (step cfg s (PollResult.ok (d :: ds)) lr).2.1.countP isInProgressCall = 1 ∧
      Event.updateCall "in_progress" ∈ (step cfg s (PollResult.ok (d :: ds)) lr).2.1 ∧
      (step cfg s (PollResult.ok (d :: ds)) lr).1.markedAsInProgress = true) ∧
    (∀ cfg s d ds lr, cfg.commitHash = "" → d.is_skipped = false →
      s.markedAsInProgress = false → d.latest_stage.name = s.lastStage →
      (step cfg s (PollResult.ok (d :: ds)) lr).2.1.countP isInProgressCall = 0 ∧
      (step cfg s (PollResult.ok (d :: ds)) lr).1.markedAsInProgress = false) ∧
    (∀ cfg s pr lr, s.markedAsInProgress = true →
      (step cfg s pr lr).2.1.countP isInProgressCall = 0 ∧
      (step cfg s pr lr).1.markedAsInProgress = true) := by
  refine ⟨?_, ?_, ?_, ?_⟩
  · intro cfg polls
    have h := runLoop_inProgress_le cfg polls initialState
    simpa [initialState] using h
  · intro cfg s d ds lr hch hskip hm ht
    refine ⟨?_, ?_, ?_⟩ <;>
    · simp [step, pollApi, selectDeployment, hch, hskip, hm, ht] <;>
        repeat' split
      all_goals try simp [hm, ht, List.countP_append, List.countP_cons,
        updateDeployment_countP_inProgress]
      all_goals exact updateDeployment_not_inProgress _ _ _ _
  · intro cfg s d ds lr hch hskip hm ht
    constructor <;>
    · simp [step, pollApi, selectDeployment, hch, hskip, hm, ht] <;>
        repeat' split
      all_goals try simp [hm, ht, List.countP_append, List.countP_cons,
        updateDeployment_countP_inProgress]
      all_goals exact updateDeployment_not_inProgress _ _ _ _
  · intro cfg s pr lr hm
    exact ⟨((step_inProgress cfg s pr lr).1 hm).2, ((step_inProgress cfg s pr lr).1 hm).1⟩

/-- C4 witness: the first observed stage change fires exactly one in_progress
reflection at a concrete state and deployment. -/
theorem C4_in_progress_reflected_at_most_once_witness :
    (step cfgA initialState (PollResult.ok [depDeployFailed]) LogsResponse.parseError).2.1.countP
        isInProgressCall = 1 ∧
    Event.updateCall "in_progress" ∈
      (step cfgA initialState (PollResult.ok [depDeployFailed]) LogsResponse.parseError).2.1 ∧
    (step cfgA initialState (PollResult.ok [depDeployFailed]) LogsResponse.parseError).1.markedAsInProgress
      = true :=
  C4_in_progress_reflected_at_most_once.2.1 cfgA initialState depDeployFailed []
    LogsResponse.parseError rfl rfl rfl (by decide)

/-- C5 counterexample: supplying both credential forms together is accepted,
not rejected: validateAuthInputs returns true when the token and the
email+key pair are all non-empty, and a run configured with both forms does
not report the auth configuration error. -/
theorem C5_counterexample_both_auth_forms_accepted :
    validateAuthInputs "tok" "user@example.com" "key" = true ∧
    run { cfgA with accountEmail := "user@example.com", apiKey := "key" } [] = [] := by
  constructor
  · rfl
  · rfl

/-- C5 amended: validation succeeds exactly when the bearer token is
non-empty or both account-email and API-key are non-empty; in particular
both forms together are accepted (the token takes precedence). When
validation fails, the run reports the auth error and performs no polling. -/
theorem C5_amended_auth_validation :
    (∀ t e k, validateAuthInputs t e k = true ↔ (t ≠ "" ∨ (e ≠ "" ∧ k ≠ ""))) ∧
    (∀ cfg polls, validateAuthInputs cfg.apiToken cfg.accountEmail cfg.apiKey = false →
      run cfg polls = [Event.setFailedEvt authFailedMessage]) := by
  constructor
  · intro t e k
    unfold validateAuthInputs
    split
    · simp_all
    · split <;> simp_all
  · intro cfg polls h
    simp [run, h]

/-- C5 witness: the amended statement at concrete inputs — validation
succeeds on a lone token and a run with no credentials at all only reports
the configuration error. -/
theorem C5_amended_auth_validation_witness :
    validateAuthInputs "tok" "" "" = true ∧
    run cfgNoAuth [(PollResult.ok [depSkipped], LogsResponse.parseError)] =
      [Event.setFailedEvt authFailedMessage] :=
  ⟨(C5_amended_auth_validation.1 "tok" "" "").mpr (Or.inl (by decide)),
   C5_amended_auth_validation.2 cfgNoAuth
     [(PollResult.ok [depSkipped], LogsResponse.parseError)] (by decide)⟩

/-- C6: updateDeployment with an empty credential is a no-op; with a
non-empty credential it pushes a deployment status exactly when the latest
stage is named deploy with status success or failed, and for any other stage
it only lazily creates the deployment record (on the first call) and pushes
nothing. -/
theorem C6_updateDeployment_status_push_conditions :
    (∀ gh d st, updateDeployment "" gh d st = (gh, [])) ∧
    (∀ tok gh d st, tok ≠ "" → d.latest_stage.name = "deploy" →
      (d.latest_stage.status = "success" ∨ d.latest_stage.status = "failed") →
      Event.ghCreateDeploymentStatus st d.url ∈ (updateDeployment tok gh d st).2) ∧
    (∀ tok gh d st, tok ≠ "" →
      ¬ (d.latest_stage.name = "deploy" ∧
          (d.latest_stage.status = "success" ∨ d.latest_stage.status = "failed")) →
      (∀ s u, Event.ghCreateDeploymentStatus s u ∉ (updateDeployment tok gh d st).2) ∧
      (updateDeployment tok gh d st).1 = some () ∧
      (gh = none → (updateDeployment tok gh d st).2 =
        [Event.ghCreateDeployment (environmentLabel d) (d.environment == "production")]) ∧
      (∀ u, gh = some u → (updateDeployment tok gh d st).2 = [])) := by
  refine ⟨fun gh d st => by simp [updateDeployment], ?_, ?_⟩
  · intro tok gh d st htok hname hstatus
    unfold updateDeployment
    rw [if_neg htok, if_pos ⟨hname, hstatus⟩]
    cases gh <;> simp
  · intro tok gh d st htok hcond
    unfold updateDeployment
    rw [if_neg htok, if_neg hcond]
    cases gh <;> simp

/-- C6 witness: the no-op, the status push at a deploy-failed stage, and the
record-only behavior at a non-terminal stage, at concrete inputs. -/
theorem C6_updateDeployment_status_push_conditions_witness :
    updateDeployment "" none depDeployFailed "failure" = (none, []) ∧
    Event.ghCreateDeploymentStatus "failure" depDeployFailed.url ∈
      (updateDeployment "ghtok" none depDeployFailed "failure").2 ∧
    (∀ s u, Event.ghCreateDeploymentStatus s u ∉
      (updateDeployment "ghtok" none depSkipped "in_progress").2) :=
  ⟨C6_updateDeployment_status_push_conditions.1 none depDeployFailed "failure",
   C6_updateDeployment_status_push_conditions.2.1 "ghtok" none depDeployFailed "failure"
     (by decide) rfl (Or.inr rfl),
   (C6_updateDeployment_status_push_conditions.2.2 "ghtok" none depSkipped "in_progress"
     (by decide) (by decide)).1⟩

/-- C7: a polled deployment at the deploy stage with status success halts the
run and publishes the outputs: success=true, url equal to the deployment URL,
and alias equal to the first alias when the alias list is non-empty, else the
deployment URL. -/
theorem C7_deploy_success_outputs (cfg : Config) (s : RunState) (d : Deployment)
    (ds : List Deployment) (lr : LogsResponse) (hch : cfg.commitHash = "")
    (hw : s.waiting = true) (hskip : d.is_skipped = false)
    (hname : d.latest_stage.name = "deploy")
    (hstatus : d.latest_stage.status = "success") :
    Event.output "success" "true" ∈ (step cfg s (PollResult.ok (d :: ds)) lr).2.1 ∧
    Event.output "url" d.url ∈ (step cfg s (PollResult.ok (d :: ds)) lr).2.1 ∧
    Event.output "alias" (aliasUrlOf d) ∈ (step cfg s (PollResult.ok (d :: ds)) lr).2.1 ∧
    Event.output "id" d.id ∈ (step cfg s (PollResult.ok (d :: ds)) lr).2.1 ∧
    Event.output "environment" d.environment ∈ (step cfg s (PollResult.ok (d :: ds)) lr).2.1 ∧
    (step cfg s (PollResult.ok (d :: ds)) lr).1.waiting = false ∧
    (∀ rest, runLoop cfg s ((PollResult.ok (d :: ds), lr) :: rest) =
      (step cfg s (PollResult.ok (d :: ds)) lr).2.1) ∧
    (∀ l, d.aliases = some l → aliasUrlOf d = l.headD d.url) ∧
    (d.aliases = none → aliasUrlOf d = d.url) := by
  have hfail : ¬ (d.latest_stage.status = "failed" ∨ d.latest_stage.status = "failure") := by
    simp [hstatus]
  have hwait : (step cfg s (PollResult.ok (d :: ds)) lr).1.waiting = false := by
    simp [step, pollApi, selectDeployment, hch, hskip, hfail, hname, hstatus]
  have hret : (step cfg s (PollResult.ok (d :: ds)) lr).2.2 = false := by
    simp [step, pollApi, selectDeployment, hch, hskip, hfail, hname, hstatus]
  refine ⟨?_, ?_, ?_, ?_, ?_, hwait, ?_, ?_, ?_⟩
  · simp [step, pollApi, selectDeployment, hch, hskip, hfail, hname, hstatus]
  · simp [step, pollApi, selectDeployment, hch, hskip, hfail, hname, hstatus]
  · simp [step, pollApi, selectDeployment, hch, hskip, hfail, hname, hstatus]
  · simp [step, pollApi, selectDeployment, hch, hskip, hfail, hname, hstatus]
  · simp [step, pollApi, selectDeployment, hch, hskip, hfail, hname, hstatus]
  · intro rest
    rw [runLoop]
    simp only [hw, if_true]
    rw [if_neg (by rw [hret]; exact Bool.false_ne_true)]
    rw [runLoop_not_waiting cfg _ rest hwait, List.append_nil]
  · intro l hl
    cases l <;> simp [aliasUrlOf, hl]
  · intro h0
    simp [aliasUrlOf, h0]

/-- C7 witness: the published outputs at a concrete successful deployment
carrying one alias. -/
theorem C7_deploy_success_outputs_witness :
    Event.output "success" "true" ∈
      (step cfgA initialState (PollResult.ok [depDeploySuccess]) LogsResponse.parseError).2.1 ∧
    Event.output "url" depDeploySuccess.url ∈
      (step cfgA initialState (PollResult.ok [depDeploySuccess]) LogsResponse.parseError).2.1 ∧
    Event.output "alias" (aliasUrlOf depDeploySuccess) ∈
      (step cfgA initialState (PollResult.ok [depDeploySuccess]) LogsResponse.parseError).2.1 ∧
    Event.output "id" depDeploySuccess.id ∈
      (step cfgA initialState (PollResult.ok [depDeploySuccess]) LogsResponse.parseError).2.1 ∧
    Event.output "environment" depDeploySuccess.environment ∈
      (step cfgA initialState (PollResult.ok [depDeploySuccess]) LogsResponse.parseError).2.1 ∧
    (step cfgA initialState (PollResult.ok [depDeploySuccess]) LogsResponse.parseError).1.waiting
      = false ∧
    (∀ rest, runLoop cfgA initialState
        ((PollResult.ok [depDeploySuccess], LogsResponse.parseError) :: rest) =
      (step cfgA initialState (PollResult.ok [depDeploySuccess]) LogsResponse.parseError).2.1) ∧
    (∀ l, depDeploySuccess.aliases = some l →
      aliasUrlOf depDeploySuccess = l.headD depDeploySuccess.url) ∧
    (depDeploySuccess.aliases = none → aliasUrlOf depDeploySuccess = depDeploySuccess.url) :=
  C7_deploy_success_outputs cfgA initialState depDeploySuccess [] LogsResponse.parseError
    rfl rfl rfl rfl rfl

/-- C8: a polled deployment with is_skipped true halts the run on that poll
with a single skip-message output event: no status reflection, no
notification, no setFailed, and the loop processes nothing further. -/
theorem C8_skipped_deployment_halts_cleanly (cfg : Config) (s : RunState) (d : Deployment)
    (ds : List Deployment) (lr : LogsResponse) (hch : cfg.commitHash = "")
    (hw : s.waiting = true) (hskip : d.is_skipped = true) :
    step cfg s (PollResult.ok (d :: ds)) lr =
      ({ s with waiting := false },
       [Event.skipOutput ("Deployment skipped " ++ d.id ++ "!")], true) ∧
    (∀ rest, runLoop cfg s ((PollResult.ok (d :: ds), lr) :: rest) =
      [Event.skipOutput ("Deployment skipped " ++ d.id ++ "!")]) := by
  have hstep : step cfg s (PollResult.ok (d :: ds)) lr =
      ({ s with waiting := false },
       [Event.skipOutput ("Deployment skipped " ++ d.id ++ "!")], true) := by
    simp [step, pollApi, selectDeployment, hch, hskip]
  refine ⟨hstep, fun rest => ?_⟩
  simp [runLoop, hw, hstep]

/-- C8 witness: the skip behavior at a concrete skipped deployment. -/
theorem C8_skipped_deployment_halts_cleanly_witness :
    step cfgA initialState (PollResult.ok [depSkipped]) LogsResponse.parseError =
      ({ initialState with waiting := false },
       [Event.skipOutput ("Deployment skipped " ++ depSkipped.id ++ "!")], true) ∧
    (∀ rest, runLoop cfgA initialState
        ((PollResult.ok [depSkipped], LogsResponse.parseError) :: rest) =
      [Event.skipOutput ("Deployment skipped " ++ depSkipped.id ++ "!")]) :=
  C8_skipped_deployment_halts_cleanly cfgA initialState depSkipped [] LogsResponse.parseError
    rfl rfl rfl

/-- C9: every failure outcome of the log fetch (thrown network error, non-ok
HTTP status, unparseable body, missing or empty data array) yields the empty
string rather than an error, and a successful fetch yields a code-fenced join
of at most the last 20 fetched lines (a suffix of the fetched lines). -/
theorem C9_log_fetch_never_fatal :
    (∀ m, getCloudflareLogs (LogsResponse.netError m) = "") ∧
    (∀ n, getCloudflareLogs (LogsResponse.httpError n) = "") ∧
    (getCloudflareLogs LogsResponse.parseError = "") ∧
    (getCloudflareLogs (LogsResponse.body none) = "") ∧
    (getCloudflareLogs (LogsResponse.body (some [])) = "") ∧
    (∀ lines : List String, lines ≠ [] →
      getCloudflareLogs (LogsResponse.body (some lines)) =
        "```" ++ String.intercalate "\n" (lines.drop (lines.length - 20)) ++ "\n```" ∧
      (lines.drop (lines.length - 20)).length ≤ 20 ∧
      (lines.drop (lines.length - 20)) <:+ lines) := by
  refine ⟨fun m => rfl, fun n => rfl, rfl, rfl, rfl, ?_⟩
  intro lines h
  refine ⟨?_, ?_, List.drop_suffix _ _⟩
  · simp [getCloudflareLogs, List.length_pos.mpr h]
  · simp [List.length_drop]
    omega

/-- C9 witness: the code-fenced join of a concrete two-line fetch. -/
theorem C9_log_fetch_never_fatal_witness :
    getCloudflareLogs (LogsResponse.body (some ["a", "b"])) =
      "```" ++ String.intercalate "\n" ((["a", "b"] : List String).drop
        ((["a", "b"] : List String).length - 20)) ++ "\n```" ∧
    ((["a", "b"] : List String).drop ((["a", "b"] : List String).length - 20)).length ≤ 20 ∧
    ((["a", "b"] : List String).drop ((["a", "b"] : List String).length - 20)) <:+
      (["a", "b"] : List String) :=
  C9_log_fetch_never_fatal.2.2.2.2.2 ["a", "b"] (by decide)

/-- C10: with an empty commitHash pollApi selects the head of the parsed
(newest-first) deployment list; with a non-empty commitHash it selects the
first deployment whose trigger commit hash matches, selecting none when no
deployment matches, in which case the loop logs a waiting message and keeps
polling with its state unchanged. -/
theorem C10_commit_hash_filtering :
    (∀ l : List Deployment, selectDeployment "" l = l.head?) ∧
    (∀ (ch : String) (l : List Deployment), ch ≠ "" →
      selectDeployment ch l =
        l.find? (fun d => d.deployment_trigger.metadata.commit_hash == ch)) ∧
    (∀ (ch : String) (l : List Deployment), ch ≠ "" →
      (∀ d ∈ l, d.deployment_trigger.metadata.commit_hash ≠ ch) →
      selectDeployment ch l = none) ∧
    (∀ cfg s l lr rest, s.waiting = true → selectDeployment cfg.commitHash l = none →
      runLoop cfg s ((PollResult.ok l, lr) :: rest) =
        Event.logWaiting :: runLoop cfg s rest) := by
  refine ⟨fun l => rfl, ?_, ?_, ?_⟩
  · intro ch l h
    simp [selectDeployment, h]
  · intro ch l h hnone
    rw [selectDeployment, if_neg h]
    rw [List.find?_eq_none]
    intro d hd
    simpa using hnone d hd
  · intro cfg s l lr rest hw hnone
    simp [runLoop, hw, step, pollApi, hnone]

/-- C10 witness: filtering on a hash carried by no deployment selects none
and the loop keeps polling at a concrete configuration. -/
theorem C10_commit_hash_filtering_witness :
    selectDeployment "zzz" [depDeploySuccess] = none ∧
    (∀ rest, runLoop cfgHash initialState
        ((PollResult.ok [depDeploySuccess], LogsResponse.parseError) :: rest) =
      Event.logWaiting :: runLoop cfgHash initialState rest) :=
  ⟨C10_commit_hash_filtering.2.2.1 "zzz" [depDeploySuccess] (by decide)
     (by intro d hd; simp at hd; subst hd; decide),
   fun rest => C10_commit_hash_filtering.2.2.2 cfgHash initialState [depDeploySuccess]
     LogsResponse.parseError rest rfl (by decide)⟩
